import Mathlib

/-!
Verification of the notes-app API adapter and view controller
(`src/frontend_react_app/src/api/notesApi.js` and
`src/frontend_react_app/src/App.js`) against its specification.

The JavaScript code is shallowly embedded: JSON values become the `Json`
inductive, JavaScript member access, truthiness and the nullish-coalescing
operator become explicit functions, the HTTP transport becomes an oracle
`Req → Except JsError Json` describing the outcome of each request, and the
React component state becomes the `AppState` structure with explicit
transition functions for the synchronous segments of the async handlers.
-/

set_option autoImplicit false

/-- A JSON value, the data flowing between the backend and the adapter.
Numbers are modelled as integers; none of the verified code performs
arithmetic on them, they are only passed through and compared. -/
inductive Json where
  | null
  | bool (b : Bool)
  | num (n : Int)
  | str (s : String)
  | arr (elems : List Json)
  | obj (fields : List (String × Json))

/-- JavaScript truthiness of a value (`Boolean(v)`). Objects and arrays are
always truthy; `null`, `false`, `0` and the empty string are falsy. -/
def truthy : Json → Bool
  | .null => false
  | .bool b => b
  | .num n => n != 0
  | .str s => s != ""
  | .arr _ => true
  | .obj _ => true

/-- Truthiness of a possibly-undefined value (`undefined` is `none`). -/
def truthyOpt : Option Json → Bool
  | none => false
  | some j => truthy j

/-- First binding of a key in an object field list (JavaScript property
lookup; parsed JSON objects have unique keys, duplicates keep the first). -/
def lookupField : List (String × Json) → String → Option Json
  | [], _ => none
  | (k, v) :: rest, key => if k = key then some v else lookupField rest key

/-- The index/value fields an array contributes under object spread and
property access (`{...arr}` has keys "0", "1", ...). -/
def arrayFields (elems : List Json) : List (String × Json) :=
  elems.enum.map (fun p => (toString p.1, p.2))

/-- JavaScript property access `v[key]` for the keys the adapter reads;
`none` models `undefined` (missing property or access on a primitive). -/
def getProp : Json → String → Option Json
  | .obj fields, key => lookupField fields key
  | .arr elems, key => lookupField (arrayFields elems) key
  | _, _ => none

/-- Nullish coalescing `a ?? b` where `a` is a property access result:
`undefined` (`none`) and `null` fall through to `b`. -/
def nullishOr (a : Option Json) (b : Json) : Json :=
  match a with
  | some .null => b
  | some v => v
  | none => b

/-- Set a key in an object field list, replacing the first existing binding
in place or appending (JavaScript object-literal override semantics). -/
def setKey : List (String × Json) → String → Json → List (String × Json)
  | [], k, v => [(k, v)]
  | (k0, v0) :: rest, k, v =>
    if k0 = k then (k0, v) :: rest else (k0, v0) :: setKey rest k v

/-- The own enumerable fields a value contributes under object spread
(`{...raw}`): object fields, array index fields, nothing for primitives. -/
def spreadFields : Json → List (String × Json)
  | .obj fields => fields
  | .arr elems => arrayFields elems
  | _ => []

mutual

/-- JavaScript string conversion `String(v)` for the values that can reach
it (arrays stringify as comma-joined elements with `null` blank, objects as
the generic tag). -/
def jsToString : Json → String
  | .null => "null"
  | .bool b => if b then "true" else "false"
  | .num n => toString n
  | .str s => s
  | .arr elems => String.intercalate "," (jsToStringElems elems)
  | .obj _ => "[object Object]"

/-- The element strings joined by `Array.prototype.toString`: `null`
elements stringify to the empty string. -/
def jsToStringElems : List Json → List String
  | [] => []
  | .null :: rest => "" :: jsToStringElems rest
  | v :: rest => jsToString v :: jsToStringElems rest

end

/-- The characters `String.prototype.trim` removes: ECMAScript WhiteSpace
(tab, VT, FF, space, NBSP, BOM and the Unicode space separators) and
LineTerminator (LF, CR, LS, PS). -/
def jsWhitespace (c : Char) : Bool :=
  c.toNat ∈ [9, 10, 11, 12, 13, 32, 160, 5760, 8192, 8193, 8194, 8195,
    8196, 8197, 8198, 8199, 8200, 8201, 8202, 8232, 8233, 8239, 8287,
    12288, 65279]

/-- `String.prototype.trim`: strip leading and trailing whitespace. -/
def jsTrim (s : String) : String :=
  String.mk (((s.data.dropWhile jsWhitespace).reverse.dropWhile jsWhitespace).reverse)

/-- Substring test on character lists, the semantics of
`String.prototype.includes`. -/
def listIncludes (s sub : List Char) : Bool :=
  (List.range (s.length + 1)).any (fun i => (s.drop i).take sub.length = sub)

/-- `haystack.includes(needle)` on strings. -/
def strIncludes (s sub : String) : Bool :=
  listIncludes s.data sub.data

/-- `String.prototype.toLowerCase`, characterwise. -/
def jsToLower (s : String) : String :=
  String.mk (s.data.map Char.toLower)

/-- Uppercase hexadecimal digit, used by percent-encoding. -/
def hexDigitUpper (n : Nat) : Char :=
  if n < 10 then Char.ofNat (48 + n) else Char.ofNat (55 + n)

/-- Lowercase hexadecimal digit, used by JSON string escapes. -/
def hexDigitLower (n : Nat) : Char :=
  if n < 10 then Char.ofNat (48 + n) else Char.ofNat (87 + n)

/-- UTF-8 encoding of a character as a list of byte values. -/
def utf8Bytes (c : Char) : List Nat :=
  let n := c.toNat
  if n < 128 then [n]
  else if n < 2048 then [192 + n / 64, 128 + n % 64]
  else if n < 65536 then [224 + n / 4096, 128 + (n / 64) % 64, 128 + n % 64]
  else [240 + n / 262144, 128 + (n / 4096) % 64, 128 + (n / 64) % 64, 128 + n % 64]

/-- Percent-escape of one byte: a percent sign and two uppercase hex digits. -/
def percentByte (b : Nat) : List Char :=
  [Char.ofNat 37, hexDigitUpper (b / 16), hexDigitUpper (b % 16)]

/-- Characters `encodeURIComponent` leaves unescaped: alphanumerics,
hyphen, underscore, dot, bang, tilde, star, apostrophe and parentheses. -/
def uriUnreserved (c : Char) : Bool :=
  (65 ≤ c.toNat && c.toNat ≤ 90) || (97 ≤ c.toNat && c.toNat ≤ 122) ||
  (48 ≤ c.toNat && c.toNat ≤ 57) ||
  c.toNat ∈ [45, 95, 46, 33, 126, 42, 39, 40, 41]

/-- Encoding of a single character under `encodeURIComponent`. -/
def encodeUriChar (c : Char) : List Char :=
  if uriUnreserved c then [c] else (utf8Bytes c).flatMap percentByte

/-- `encodeURIComponent`, used for path identifiers and search queries. -/
def encodeURIComponent (s : String) : String :=
  String.mk (s.data.flatMap encodeUriChar)

/-- Escape of one character inside a JSON string literal
(`JSON.stringify` semantics). -/
def jsonEscapeChar (c : Char) : List Char :=
  if c.toNat = 34 then [Char.ofNat 92, Char.ofNat 34]
  else if c.toNat = 92 then [Char.ofNat 92, Char.ofNat 92]
  else if c.toNat = 8 then [Char.ofNat 92, Char.ofNat 98]
  else if c.toNat = 9 then [Char.ofNat 92, Char.ofNat 116]
  else if c.toNat = 10 then [Char.ofNat 92, Char.ofNat 110]
  else if c.toNat = 12 then [Char.ofNat 92, Char.ofNat 102]
  else if c.toNat = 13 then [Char.ofNat 92, Char.ofNat 114]
  else if c.toNat < 32 then
    [Char.ofNat 92, Char.ofNat 117, Char.ofNat 48, Char.ofNat 48,
     hexDigitLower (c.toNat / 16), hexDigitLower (c.toNat % 16)]
  else [c]

/-- A JSON string literal for `s`, with quotes and escapes. -/
def jsonQuote (s : String) : String :=
  String.mk (Char.ofNat 34 :: (s.data.flatMap jsonEscapeChar ++ [Char.ofNat 34]))

/-- `JSON.stringify(\x7btitle, content\x7d)`: the exact request body built by
`createNote` and `updateNote`. -/
def jsonStringifyPair (title content : String) : String :=
  "\x7b" ++ jsonQuote "title" ++ ":" ++ jsonQuote title ++ "," ++
    jsonQuote "content" ++ ":" ++ jsonQuote content ++ "\x7d"

/-! ## HTTP transport model -/

/-- A JavaScript error as thrown by the adapter or the transport:
`name` distinguishes the abort signal (`"AbortError"`) and type errors,
`status` is the numeric HTTP status attached by `requestJson` to non-2xx
responses (`none` on network errors and aborts). -/
structure JsError where
  name : String
  message : String
  status : Option Nat
  deriving DecidableEq, Repr

/-- An HTTP request as issued by `requestJson`: method, path (relative to
the base URL, query string included) and optional JSON body. -/
structure Req where
  method : String
  path : String
  body : Option String
  deriving DecidableEq, Repr

/-- An HTTP response as observed by `requestJson`: status code, the
content-type header (empty when absent), the raw body text, and the result
of parsing that text as JSON (`none` when parsing fails). -/
structure HttpResp where
  status : Nat
  contentType : String
  bodyText : String
  jsonBody : Option Json

/-- `Response.ok`: status in the 2xx range. -/
def respOk (status : Nat) : Bool :=
  200 ≤ status && status ≤ 299

/-- Whether the response declares a JSON content type
(`contentType.includes("application/json")`). -/
def respIsJson (res : HttpResp) : Bool :=
  strIncludes res.contentType "application/json"

/-- The generic failure message `Request failed (status)`. -/
def genericFailMsg (status : Nat) : String :=
  "Request failed (" ++ toString status ++ ")"

/-- The message of the error thrown for a non-2xx response: for JSON
responses the first truthy of the `detail` and `message` body fields
(coerced to a string by the `Error` constructor), else the generic message;
for non-JSON responses the raw body text when non-empty, else the generic
message. -/
def errorMessageFor (res : HttpResp) : String :=
  let generic := genericFailMsg res.status
  if respIsJson res then
    match res.jsonBody with
    | some data =>
      if truthyOpt (getProp data "detail") then
        jsToString (nullishOr (getProp data "detail") .null)
      else if truthyOpt (getProp data "message") then
        jsToString (nullishOr (getProp data "message") .null)
      else generic
    | none => generic
  else if res.bodyText != "" then res.bodyText
  else generic

/-- The error `requestJson` throws for a non-2xx response: an `Error`
carrying the classified message and the numeric status. -/
def requestJsonError (res : HttpResp) : JsError :=
  { name := "Error", message := errorMessageFor res, status := some res.status }

/-- The `TypeError` thrown when `.map` is called on a non-array value
inside `normalizeNotesResponse`. -/
def mapTypeError : JsError :=
  { name := "TypeError", message := "list.map is not a function", status := none }

/-- The `SyntaxError` thrown when a 2xx JSON response body fails to parse. -/
def jsonSyntaxError : JsError :=
  { name := "SyntaxError", message := "Unexpected token", status := none }

/-- `requestJson` applied to a delivered response: throws the classified
error on non-2xx, returns `null` on 204, the parsed JSON body for JSON
responses (a parse failure throws), and the body text otherwise. -/
def requestJson (res : HttpResp) : Except JsError Json :=
  if !respOk res.status then .error (requestJsonError res)
  else if res.status = 204 then .ok .null
  else if respIsJson res then
    match res.jsonBody with
    | some data => .ok data
    | none => .error jsonSyntaxError
  else .ok (.str res.bodyText)

/-- The outcome of one `requestJson` call as seen by the adapter
operations: either the value it returns or the error it throws. An oracle
`Req → FetchOutcome` stands for the backend plus transport. -/
def FetchOutcome : Type := Except JsError Json

/-! ## Response normalization (notesApi.js lines 79-97) -/

/-- `normalizeNote`: primitives and `null` are rejected (`!raw || typeof
raw !== "object"`), any object (arrays included) is spread and its `id`,
`title` and `content` fields set from the alias chains
`raw.id ?? raw.note_id ?? raw._id ?? raw.uuid ?? null`,
`raw.title ?? ""` and `raw.content ?? raw.body ?? ""`. -/
def normalizeNote (raw : Json) : Option Json :=
  match raw with
  | .null => none
  | .bool _ => none
  | .num _ => none
  | .str _ => none
  | _ =>
    let idVal := nullishOr (getProp raw "id") (nullishOr (getProp raw "note_id")
      (nullishOr (getProp raw "_id") (nullishOr (getProp raw "uuid") .null)))
    let titleVal := nullishOr (getProp raw "title") (.str "")
    let contentVal := nullishOr (getProp raw "content")
      (nullishOr (getProp raw "body") (.str ""))
    some (.obj (setKey (setKey (setKey (spreadFields raw) "id" idVal)
      "title" titleVal) "content" contentVal))

/-- The wrapped list extracted from a list/search response:
`Array.isArray(data) ? data : data?.items || data?.notes || []`. -/
def rawNotesList (data : Json) : Json :=
  match data with
  | .arr elems => .arr elems
  | _ =>
    let items := getProp data "items"
    if truthyOpt items then nullishOr items .null
    else
      let notes := getProp data "notes"
      if truthyOpt notes then nullishOr notes .null
      else .arr []

/-- `normalizeNotesResponse`: `list.map(normalizeNote).filter(Boolean)`.
`none` models the `TypeError` thrown when the extracted value is not an
array (normalized notes are objects, hence truthy, so `filter(Boolean)`
drops exactly the `null` results of `normalizeNote`). -/
def normalizeNotesResponse (data : Json) : Option (List Json) :=
  match rawNotesList data with
  | .arr elems => some (elems.filterMap normalizeNote)
  | _ => none

/-- A `requestJson` call followed by `normalizeNotesResponse`, the shared
shape of `listNotes` and each `searchNotes` attempt; the normalization
`TypeError` propagates like any thrown error. -/
def requestAndNormalize (fetch : Req → FetchOutcome) (r : Req) :
    Except JsError (List Json) :=
  match fetch r with
  | .error e => .error e
  | .ok data =>
    match normalizeNotesResponse data with
    | some l => .ok l
    | none => .error mapTypeError

/-! ## Adapter operations (notesApi.js lines 100-185) -/

/-- The request issued by `listNotes`. -/
def listReq : Req :=
  { method := "GET", path := "/notes", body := none }

/-- `listNotes`: GET the collection and normalize the response. -/
def listNotes (fetch : Req → FetchOutcome) : Except JsError (List Json) :=
  requestAndNormalize fetch listReq

/-- The PUT request first issued by `updateNote` for a given id and
payload (`String(id)` percent-encoded into the path, body
`JSON.stringify` of exactly title and content). -/
def updatePutReq (id title content : String) : Req :=
  { method := "PUT", path := "/notes/" ++ encodeURIComponent id,
    body := some (jsonStringifyPair title content) }

/-- The PATCH request issued by the `updateNote` fallback: same path, same
body, method PATCH. -/
def updatePatchReq (id title content : String) : Req :=
  { method := "PATCH", path := "/notes/" ++ encodeURIComponent id,
    body := some (jsonStringifyPair title content) }

/-- `updateNote`: PUT first; on an error whose status is 405, one PATCH
with the identical body; any other PUT error and any PATCH error rethrow.
The first component is the trace of issued requests in order; the result
value is `normalizeNote(data) || null` (`none` plays the role of `null`). -/
def updateNote (fetch : Req → FetchOutcome) (id title content : String) :
    List Req × Except JsError (Option Json) :=
  let put := updatePutReq id title content
  match fetch put with
  | .ok data => ([put], .ok (normalizeNote data))
  | .error e =>
    if e.status = some 405 then
      let patch := updatePatchReq id title content
      match fetch patch with
      | .ok data => ([put, patch], .ok (normalizeNote data))
      | .error e2 => ([put, patch], .error e2)
    else ([put], .error e)

/-- First search attempt: `q` on the dedicated search path. -/
def searchReq1 (q : String) : Req :=
  { method := "GET", path := "/notes/search?q=" ++ q, body := none }

/-- Second search attempt: `query` on the dedicated search path. -/
def searchReq2 (q : String) : Req :=
  { method := "GET", path := "/notes/search?query=" ++ q, body := none }

/-- Third search attempt: `q` on the base collection path. -/
def searchReq3 (q : String) : Req :=
  { method := "GET", path := "/notes?q=" ++ q, body := none }

/-- `searchNotes`: encode the trimmed query; an empty encoded query
returns `[]` with no request; otherwise try the three endpoint patterns in
order, each attempt being a fetch plus normalization, returning the first
that does not throw; the third attempt is not guarded, so its error
propagates. The first component is the trace of issued requests. -/
def searchNotes (fetch : Req → FetchOutcome) (query : String) :
    List Req × Except JsError (List Json) :=
  let q := encodeURIComponent (jsTrim query)
  if q = "" then ([], .ok [])
  else
    match requestAndNormalize fetch (searchReq1 q) with
    | .ok l => ([searchReq1 q], .ok l)
    | .error _ =>
      match requestAndNormalize fetch (searchReq2 q) with
      | .ok l => ([searchReq1 q, searchReq2 q], .ok l)
      | .error _ =>
        ([searchReq1 q, searchReq2 q, searchReq3 q],
          requestAndNormalize fetch (searchReq3 q))

/-! ## View controller model (App.js) -/

/-- `v || ""`: the value when truthy, else the empty string, as applied by
`containsInsensitive` to possibly-undefined inputs. -/
def orEmptyString (v : Option Json) : Json :=
  match v with
  | some j => if truthy j then j else .str ""
  | none => .str ""

/-- `containsInsensitive(haystack, needle)`: coerce both sides with
`String(x || "")`, lowercase, substring test. -/
def containsInsensitive (haystack needle : Option Json) : Bool :=
  strIncludes (jsToLower (jsToString (orEmptyString haystack)))
    (jsToLower (jsToString (orEmptyString needle)))

/-- `filterClientSide(notes, query)`: trimmed-empty query returns the notes
unchanged, otherwise keeps the notes whose title or content contains the
query case-insensitively. -/
def filterClientSide (notes : List Json) (query : String) : List Json :=
  let q := jsTrim query
  if q = "" then notes
  else notes.filter (fun n =>
    containsInsensitive (getProp n "title") (some (.str q)) ||
    containsInsensitive (getProp n "content") (some (.str q)))

/-- The controller state: one field per `useState` hook of `App`. -/
structure AppState where
  notes : List Json
  loading : Bool
  busyMutation : Bool
  error : String
  search : String
  modalOpen : Bool
  modalMode : String
  activeNote : Option Json
  serverSearchActive : Bool

/-- The initial controller state. -/
def initialAppState : AppState :=
  { notes := [], loading := false, busyMutation := false, error := "",
    search := "", modalOpen := false, modalMode := "create",
    activeNote := none, serverSearchActive := false }

/-- `visibleNotes`: the displayed notes, recomputed from the collection and
the search text (App.js line 37). -/
def visibleNotes (s : AppState) : List Json :=
  filterClientSide s.notes s.search

/-- The synchronous start of `loadNotes` (App.js lines 40-45): abort any
previous list request, install a fresh controller, set the loading flag and
clear the error banner. -/
def loadNotesStart (s : AppState) : AppState :=
  { s with loading := true, error := "" }

/-- The continuation of a `loadNotes` call once its request settles
(App.js lines 46-54): on success replace the notes; on an abort return
from the catch; on any other error surface `e.message` with a fallback
text. The `finally` clause clears the loading flag on every path,
including the aborted one. -/
def loadNotesFinish (s : AppState) (outcome : Except JsError (List Json)) :
    AppState :=
  match outcome with
  | .ok data => { s with notes := data, loading := false }
  | .error e =>
    if e.name = "AbortError" then { s with loading := false }
    else { s with
      error := if e.message = "" then "Failed to load notes." else e.message,
      loading := false }

/-- The continuation of the debounced server search once its request
settles (App.js lines 77-87): on success replace the notes and set the
server-search flag; on an abort return; on any other error clear the flag
and surface nothing. -/
def searchResolve (s : AppState) (outcome : Except JsError (List Json)) :
    AppState :=
  match outcome with
  | .ok results => { s with notes := results, serverSearchActive := true }
  | .error e =>
    if e.name = "AbortError" then s else { s with serverSearchActive := false }

/-- The abort rejection delivered to a superseded request. -/
def abortError : JsError :=
  { name := "AbortError", message := "The operation was aborted.", status := none }

/-- Whether a property-access result is nullish (missing, or `null`), the
values the `??` operator skips. -/
def isNullish (a : Option Json) : Bool :=
  match a with
  | none => true
  | some .null => true
  | some _ => false

/-- Whether a value is a JSON string. -/
def isStr : Json → Bool
  | .str _ => true
  | _ => false

/-- The JSON values that are not objects in the JavaScript sense
(`typeof` not `"object"`, or `null`): exactly what `normalizeNote`
rejects. -/
def jsNonObject : Json → Bool
  | .null => true
  | .bool _ => true
  | .num _ => true
  | .str _ => true
  | _ => false

/-- A 405 Method Not Allowed error as classified by `requestJson`. -/
def err405 : JsError :=
  { name := "Error", message := "Method Not Allowed", status := some 405 }

/-- A transport-level failure (`fetch` rejecting), which carries no HTTP
status. -/
def networkError : JsError :=
  { name := "TypeError", message := "Failed to fetch", status := none }

/-! ## Helper lemmas -/

theorem lookupField_setKey_self (fs : List (String × Json)) (k : String) (v : Json) :
    lookupField (setKey fs k v) k = some v := by
  induction fs with
  | nil => simp [setKey, lookupField]
  | cons hd tl ih =>
    obtain ⟨k0, v0⟩ := hd
    by_cases hk : k0 = k
    · simp [setKey, hk, lookupField]
    · simp [setKey, hk, lookupField, ih]

theorem lookupField_setKey_ne (fs : List (String × Json)) (k : String) (v : Json)
    (k2 : String) (h : k2 ≠ k) :
    lookupField (setKey fs k v) k2 = lookupField fs k2 := by
  induction fs with
  | nil => simp [setKey, lookupField, Ne.symm h]
  | cons hd tl ih =>
    obtain ⟨k0, v0⟩ := hd
    by_cases hk : k0 = k
    · subst hk
      simp [setKey, lookupField, Ne.symm h]
    · simp only [setKey, if_neg hk, lookupField]
      by_cases hk2 : k0 = k2
      · simp [hk2]
      · simp [hk2, ih]

theorem nullishOr_of_isNullish {a : Option Json} (b : Json)
    (h : isNullish a = true) : nullishOr a b = b := by
  match a with
  | none => rfl
  | some .null => rfl
  | some (.bool _) => simp [isNullish] at h
  | some (.num _) => simp [isNullish] at h
  | some (.str _) => simp [isNullish] at h
  | some (.arr _) => simp [isNullish] at h
  | some (.obj _) => simp [isNullish] at h

theorem nullishOr_of_not_nullish {a : Option Json} {v : Json} (b : Json)
    (h : isNullish a = false) (hv : a = some v) : nullishOr a b = v := by
  subst hv
  match v with
  | .null => simp [isNullish] at h
  | .bool _ => rfl
  | .num _ => rfl
  | .str _ => rfl
  | .arr _ => rfl
  | .obj _ => rfl

theorem getProp_eq_lookup_spread (raw : Json) (h : jsNonObject raw = false)
    (k : String) : getProp raw k = lookupField (spreadFields raw) k := by
  match raw with
  | .null => simp [jsNonObject] at h
  | .bool _ => simp [jsNonObject] at h
  | .num _ => simp [jsNonObject] at h
  | .str _ => simp [jsNonObject] at h
  | .arr _ => rfl
  | .obj _ => rfl

/-- On any JavaScript object (plain object or array) `normalizeNote`
produces the spread object with the three canonical fields set. -/
theorem normalizeNote_eq_of_object (raw : Json) (h : jsNonObject raw = false) :
    normalizeNote raw = some (.obj (setKey (setKey (setKey (spreadFields raw)
      "id" (nullishOr (getProp raw "id") (nullishOr (getProp raw "note_id")
        (nullishOr (getProp raw "_id") (nullishOr (getProp raw "uuid") .null)))))
      "title" (nullishOr (getProp raw "title") (.str "")))
      "content" (nullishOr (getProp raw "content")
        (nullishOr (getProp raw "body") (.str ""))))) := by
  match raw with
  | .null => simp [jsNonObject] at h
  | .bool _ => simp [jsNonObject] at h
  | .num _ => simp [jsNonObject] at h
  | .str _ => simp [jsNonObject] at h
  | .arr _ => rfl
  | .obj _ => rfl

theorem normalizeNote_id_field (raw : Json) (h : jsNonObject raw = false) :
    (normalizeNote raw).bind (fun n => getProp n "id") =
      some (nullishOr (getProp raw "id") (nullishOr (getProp raw "note_id")
        (nullishOr (getProp raw "_id") (nullishOr (getProp raw "uuid") .null)))) := by
  rw [normalizeNote_eq_of_object raw h]
  show getProp (.obj _) "id" = _
  show lookupField (setKey _ "content" _) "id" = _
  rw [lookupField_setKey_ne _ _ _ _ (by decide),
    lookupField_setKey_ne _ _ _ _ (by decide),
    lookupField_setKey_self]

theorem normalizeNote_title_field (raw : Json) (h : jsNonObject raw = false) :
    (normalizeNote raw).bind (fun n => getProp n "title") =
      some (nullishOr (getProp raw "title") (.str "")) := by
  rw [normalizeNote_eq_of_object raw h]
  show lookupField (setKey _ "content" _) "title" = _
  rw [lookupField_setKey_ne _ _ _ _ (by decide), lookupField_setKey_self]

theorem normalizeNote_content_field (raw : Json) (h : jsNonObject raw = false) :
    (normalizeNote raw).bind (fun n => getProp n "content") =
      some (nullishOr (getProp raw "content")
        (nullishOr (getProp raw "body") (.str ""))) := by
  rw [normalizeNote_eq_of_object raw h]
  show lookupField (setKey _ "content" _) "content" = _
  rw [lookupField_setKey_self]

theorem utf8Bytes_ne_nil (c : Char) : utf8Bytes c ≠ [] := by
  unfold utf8Bytes
  dsimp only
  split_ifs <;> simp

theorem encodeUriChar_ne_nil (c : Char) : encodeUriChar c ≠ [] := by
  unfold encodeUriChar
  split
  · simp
  · rcases hb : utf8Bytes c with _ | ⟨b, bs⟩
    · exact absurd hb (utf8Bytes_ne_nil c)
    · simp [percentByte]

theorem encodeURIComponent_ne_empty (s : String) (h : s ≠ "") :
    encodeURIComponent s ≠ "" := by
  unfold encodeURIComponent
  rcases s with ⟨l⟩
  rcases hl : l with _ | ⟨c, rest⟩
  · subst hl
    exact absurd rfl h
  · intro hcontra
    have hdata : (c :: rest).flatMap encodeUriChar = [] := by
      have := congrArg String.data hcontra
      simpa using this
    rw [List.flatMap_cons] at hdata
    rcases List.append_eq_nil.mp hdata with ⟨h1, _⟩
    exact encodeUriChar_ne_nil c h1

/-- In a three-step nullish-coalescing chain ending in `null`, if at least
one link is present then some present link carries exactly the chain value. -/
theorem nullish_chain3_hits (A B C : Option Json)
    (h : A ≠ none ∨ B ≠ none ∨ C ≠ none) :
    A = some (nullishOr A (nullishOr B (nullishOr C .null))) ∨
    B = some (nullishOr A (nullishOr B (nullishOr C .null))) ∨
    C = some (nullishOr A (nullishOr B (nullishOr C .null))) := by
  rcases A with _ | a
  · rcases B with _ | b
    · rcases C with _ | c
      · simp at h
      · right; right
        cases c <;> rfl
    · rcases hb : b with _ | _ | _ | _ | _ | _
      · rcases C with _ | c
        · right; left; rfl
        · right; right
          cases c <;> rfl
      all_goals right; left; rfl
  · rcases ha : a with _ | _ | _ | _ | _ | _
    · rcases B with _ | b
      · rcases C with _ | c
        · left; rfl
        · right; right
          cases c <;> rfl
      · rcases hb : b with _ | _ | _ | _ | _ | _
        · rcases C with _ | c
          · left; rfl
          · right; right
            cases c <;> rfl
        all_goals right; left; rfl
    all_goals left; rfl

/-- C5: for every sequence of raw note records `xs`, `listNotes` returns
the same normalized sequence whether the response body is the bare array
`xs`, the object wrapping it under `items`, or the object wrapping it
under `notes`. -/
theorem listNotes_shape_tolerant (xs : List Json) :
    listNotes (fun _ => .ok (.arr xs)) = .ok (xs.filterMap normalizeNote) ∧
    listNotes (fun _ => .ok (.obj [("items", .arr xs)])) =
      .ok (xs.filterMap normalizeNote) ∧
    listNotes (fun _ => .ok (.obj [("notes", .arr xs)])) =
      .ok (xs.filterMap normalizeNote) :=
  ⟨rfl, rfl, rfl⟩

/-- C6: a raw note object lacking an `id` field takes its normalized `id`
from one of the present aliases `note_id`, `_id`, `uuid`; with none of the
four identifier fields present the normalized `id` is `null`. -/
theorem normalizeNote_id_aliases (fs : List (String × Json))
    (hid : lookupField fs "id" = none) :
    ((lookupField fs "note_id" ≠ none ∨ lookupField fs "_id" ≠ none ∨
        lookupField fs "uuid" ≠ none) →
      ∃ k v, (k = "note_id" ∨ k = "_id" ∨ k = "uuid") ∧
        lookupField fs k = some v ∧
        (normalizeNote (.obj fs)).bind (fun n => getProp n "id") = some v) ∧
    ((lookupField fs "note_id" = none ∧ lookupField fs "_id" = none ∧
        lookupField fs "uuid" = none) →
      (normalizeNote (.obj fs)).bind (fun n => getProp n "id") = some .null) := by
  have hfield := normalizeNote_id_field (.obj fs) rfl
  simp only [getProp] at hfield
  rw [hid] at hfield
  simp only [nullishOr] at hfield
  constructor
  · intro halias
    rcases nullish_chain3_hits (lookupField fs "note_id") (lookupField fs "_id")
        (lookupField fs "uuid") halias with hp | hp | hp
    · exact ⟨"note_id", _, Or.inl rfl, hp, hfield⟩
    · exact ⟨"_id", _, Or.inr (Or.inl rfl), hp, hfield⟩
    · exact ⟨"uuid", _, Or.inr (Or.inr rfl), hp, hfield⟩
  · rintro ⟨h1, h2, h3⟩
    rw [h1, h2, h3] at hfield
    exact hfield

/-- C6 witness: a record with only `note_id` keeps that identifier, and a
record with no identifier field at all normalizes to a `null` id. -/
theorem normalizeNote_id_aliases_witness :
    (∃ k v, (k = "note_id" ∨ k = "_id" ∨ k = "uuid") ∧
      lookupField [("note_id", Json.str "n7")] k = some v ∧
      (normalizeNote (.obj [("note_id", Json.str "n7")])).bind
        (fun n => getProp n "id") = some v) ∧
    (normalizeNote (.obj [("x", Json.num 1)])).bind
      (fun n => getProp n "id") = some .null := by
  constructor
  · exact (normalizeNote_id_aliases [("note_id", Json.str "n7")] rfl).1
      (Or.inl (by simp [lookupField]))
  · exact (normalizeNote_id_aliases [("x", Json.num 1)] rfl).2 ⟨rfl, rfl, rfl⟩

/-- C7: a query that trims to the empty string makes `searchNotes` return
the empty list with an empty request trace, i.e. no network call. -/
theorem searchNotes_empty_query (fetch : Req → FetchOutcome) (query : String)
    (h : jsTrim query = "") : searchNotes fetch query = ([], .ok []) := by
  unfold searchNotes
  rw [h]
  rfl

/-- C7 witness: searching for two spaces performs no request. -/
theorem searchNotes_empty_query_witness :
    searchNotes (fun _ => .ok (.arr [])) "  " = ([], .ok []) :=
  searchNotes_empty_query (fun _ => .ok (.arr [])) "  " (by decide)

/-- C10: alias resolution takes the first non-nullish value, scanning
`id`, `note_id`, `_id`, `uuid` for the identifier and `content`, `body`
for the body; with every link nullish the identifier defaults to `null`
and the body to the empty string. -/
theorem normalizeNote_alias_precedence (fs : List (String × Json)) :
    (∀ v, lookupField fs "id" = some v → isNullish (some v) = false →
      (normalizeNote (.obj fs)).bind (fun n => getProp n "id") = some v) ∧
    (∀ v, isNullish (lookupField fs "id") = true →
      lookupField fs "note_id" = some v → isNullish (some v) = false →
      (normalizeNote (.obj fs)).bind (fun n => getProp n "id") = some v) ∧
    (∀ v, isNullish (lookupField fs "id") = true →
      isNullish (lookupField fs "note_id") = true →
      lookupField fs "_id" = some v → isNullish (some v) = false →
      (normalizeNote (.obj fs)).bind (fun n => getProp n "id") = some v) ∧
    (∀ v, isNullish (lookupField fs "id") = true →
      isNullish (lookupField fs "note_id") = true →
      isNullish (lookupField fs "_id") = true →
      lookupField fs "uuid" = some v → isNullish (some v) = false →
      (normalizeNote (.obj fs)).bind (fun n => getProp n "id") = some v) ∧
    (isNullish (lookupField fs "id") = true →
      isNullish (lookupField fs "note_id") = true →
      isNullish (lookupField fs "_id") = true →
      isNullish (lookupField fs "uuid") = true →
      (normalizeNote (.obj fs)).bind (fun n => getProp n "id") = some .null) ∧
    (∀ v, lookupField fs "content" = some v → isNullish (some v) = false →
      (normalizeNote (.obj fs)).bind (fun n => getProp n "content") = some v) ∧
    (∀ v, isNullish (lookupField fs "content") = true →
      lookupField fs "body" = some v → isNullish (some v) = false →
      (normalizeNote (.obj fs)).bind (fun n => getProp n "content") = some v) ∧
    (isNullish (lookupField fs "content") = true →
      isNullish (lookupField fs "body") = true →
      (normalizeNote (.obj fs)).bind (fun n => getProp n "content") =
        some (.str "")) := by
  have hid := normalizeNote_id_field (.obj fs) rfl
  have hcontent := normalizeNote_content_field (.obj fs) rfl
  have hg : ∀ k, getProp (Json.obj fs) k = lookupField fs k := fun _ => rfl
  simp only [hg] at hid hcontent
  refine ⟨?_, ?_, ?_, ?_, ?_, ?_, ?_, ?_⟩
  · intro v hv hnn
    rw [hid, hv, nullishOr_of_not_nullish _ hnn rfl]
  · intro v h1 hv hnn
    rw [hid, nullishOr_of_isNullish _ h1, hv, nullishOr_of_not_nullish _ hnn rfl]
  · intro v h1 h2 hv hnn
    rw [hid, nullishOr_of_isNullish _ h1, nullishOr_of_isNullish _ h2, hv,
      nullishOr_of_not_nullish _ hnn rfl]
  · intro v h1 h2 h3 hv hnn
    rw [hid, nullishOr_of_isNullish _ h1, nullishOr_of_isNullish _ h2,
      nullishOr_of_isNullish _ h3, hv, nullishOr_of_not_nullish _ hnn rfl]
  · intro h1 h2 h3 h4
    rw [hid, nullishOr_of_isNullish _ h1, nullishOr_of_isNullish _ h2,
      nullishOr_of_isNullish _ h3, nullishOr_of_isNullish _ h4]
  · intro v hv hnn
    rw [hcontent, hv, nullishOr_of_not_nullish _ hnn rfl]
  · intro v h1 hv hnn
    rw [hcontent, nullishOr_of_isNullish _ h1, hv, nullishOr_of_not_nullish _ hnn rfl]
  · intro h1 h2
    rw [hcontent, nullishOr_of_isNullish _ h1, nullishOr_of_isNullish _ h2]

/-- C10 witness: with both `id` and `note_id` present, `id` wins; with
both `content` and `body` present, `content` wins. -/
theorem normalizeNote_alias_precedence_witness :
    (normalizeNote (.obj [("id", Json.num 1), ("note_id", Json.num 2),
        ("content", Json.str "c"), ("body", Json.str "b")])).bind
      (fun n => getProp n "id") = some (.num 1) ∧
    (normalizeNote (.obj [("id", Json.num 1), ("note_id", Json.num 2),
        ("content", Json.str "c"), ("body", Json.str "b")])).bind
      (fun n => getProp n "content") = some (.str "c") := by
  have h := normalizeNote_alias_precedence [("id", Json.num 1),
    ("note_id", Json.num 2), ("content", Json.str "c"), ("body", Json.str "b")]
  exact ⟨h.1 (.num 1) (by simp [lookupField]) rfl,
    h.2.2.2.2.2.1 (.str "c") (by simp [lookupField]) rfl⟩

/-- C3: `updateNote` issues a PUT first; exactly when that PUT fails with
status 405 it retries once with a PATCH to the same path and the identical
body, whose outcome becomes the result; a PUT failure with any other
status, and any PATCH failure, propagate with no further request. -/
theorem updateNote_put_patch_fallback (fetch : Req → FetchOutcome)
    (id title content : String) :
    (updatePutReq id title content).method = "PUT" ∧
    (updatePatchReq id title content).method = "PATCH" ∧
    (updatePatchReq id title content).path = (updatePutReq id title content).path ∧
    (updatePatchReq id title content).body = (updatePutReq id title content).body ∧
    (updateNote fetch id title content).1.head? = some (updatePutReq id title content) ∧
    (∀ d, fetch (updatePutReq id title content) = .ok d →
      updateNote fetch id title content =
        ([updatePutReq id title content], .ok (normalizeNote d))) ∧
    (∀ e, fetch (updatePutReq id title content) = .error e → e.status = some 405 →
      (∀ d, fetch (updatePatchReq id title content) = .ok d →
        updateNote fetch id title content =
          ([updatePutReq id title content, updatePatchReq id title content],
            .ok (normalizeNote d))) ∧
      (∀ e2, fetch (updatePatchReq id title content) = .error e2 →
        updateNote fetch id title content =
          ([updatePutReq id title content, updatePatchReq id title content],
            .error e2))) ∧
    (∀ e, fetch (updatePutReq id title content) = .error e → e.status ≠ some 405 →
      updateNote fetch id title content = ([updatePutReq id title content], .error e)) := by
  refine ⟨rfl, rfl, rfl, rfl, ?_, ?_, ?_, ?_⟩
  · unfold updateNote
    rcases hf : fetch (updatePutReq id title content) with e | d
    · simp only [hf]
      by_cases h405 : e.status = some 405
      · simp only [if_pos h405]
        rcases hp : fetch (updatePatchReq id title content) with e2 | d2 <;> simp [hp]
      · simp [if_neg h405]
    · simp [hf]
  · intro d hd
    unfold updateNote
    simp [hd]
  · intro e he h405
    constructor
    · intro d hd
      unfold updateNote
      simp [he, h405, hd]
    · intro e2 he2
      unfold updateNote
      simp [he, h405, he2]
  · intro e he hne
    unfold updateNote
    simp [he, hne]

/-- C3 witness: against a backend rejecting PUT with 405 and accepting
PATCH with an empty body, `updateNote` issues PUT then PATCH and resolves
to the null note. -/
theorem updateNote_put_patch_fallback_witness :
    updateNote (fun r => if r.method = "PUT" then .error err405 else .ok .null)
        "7" "t" "c" =
      ([updatePutReq "7" "t" "c", updatePatchReq "7" "t" "c"], .ok none) := by
  have h := updateNote_put_patch_fallback
    (fun r => if r.method = "PUT" then .error err405 else .ok .null) "7" "t" "c"
  exact (h.2.2.2.2.2.2.1 err405 rfl rfl).1 Json.null rfl

/-- C4: on a non-empty trimmed query, `searchNotes` tries `q` on the
dedicated search path, then `query` on the same path, then `q` on the base
collection path, in that order; the first attempt that does not throw
short-circuits the rest, and when the first two fail the result is
whatever the third attempt yields, its failure included. -/
theorem searchNotes_three_attempts (fetch : Req → FetchOutcome)
    (query q : String) (hqdef : q = encodeURIComponent (jsTrim query))
    (hne : jsTrim query ≠ "") :
    (∀ l, requestAndNormalize fetch (searchReq1 q) = .ok l →
      searchNotes fetch query = ([searchReq1 q], .ok l)) ∧
    (∀ e l, requestAndNormalize fetch (searchReq1 q) = .error e →
      requestAndNormalize fetch (searchReq2 q) = .ok l →
      searchNotes fetch query = ([searchReq1 q, searchReq2 q], .ok l)) ∧
    (∀ e1 e2, requestAndNormalize fetch (searchReq1 q) = .error e1 →
      requestAndNormalize fetch (searchReq2 q) = .error e2 →
      searchNotes fetch query = ([searchReq1 q, searchReq2 q, searchReq3 q],
        requestAndNormalize fetch (searchReq3 q))) := by
  subst hqdef
  have hq : encodeURIComponent (jsTrim query) ≠ "" :=
    encodeURIComponent_ne_empty _ hne
  refine ⟨?_, ?_, ?_⟩
  · intro l h1
    unfold searchNotes
    simp [if_neg hq, h1]
  · intro e l h1 h2
    unfold searchNotes
    simp [if_neg hq, h1, h2]
  · intro e1 e2 h1 h2
    unfold searchNotes
    simp [if_neg hq, h1, h2]

/-- C4 witness: with the first endpoint rejecting and the second
answering an empty array, exactly two requests are made and the second
result is returned. -/
theorem searchNotes_three_attempts_witness :
    searchNotes (fun r => if r.path = "/notes/search?q=ab"
        then .error networkError else .ok (.arr [])) "ab" =
      ([searchReq1 "ab", searchReq2 "ab"], .ok []) := by
  have h := searchNotes_three_attempts
    (fun r => if r.path = "/notes/search?q=ab"
      then .error networkError else .ok (.arr [])) "ab" "ab" (by decide) (by decide)
  exact h.2.1 networkError [] rfl rfl

/-- C8 counterexample: a 500 response with JSON content type whose body
`\x7b\x7d` has neither `detail` nor `message` and non-empty raw text: the
raised message is the generic string, not the raw response text. -/
theorem requestJson_message_cex :
    requestJson (HttpResp.mk 500 "application/json" "\x7b\x7d"
        (some (.obj []))) =
      .error (JsError.mk "Error" "Request failed (500)" (some 500)) ∧
    ("\x7b\x7d" : String) ≠ "" ∧
    getProp (.obj ([] : List (String × Json))) "detail" = none ∧
    getProp (.obj ([] : List (String × Json))) "message" = none ∧
    ("Request failed (500)" : String) ≠ "\x7b\x7d" := by
  refine ⟨?_, by decide, rfl, rfl, by decide⟩
  rfl

/-- C8 amended: every non-2xx response raises an `Error` carrying the
numeric status; the message is, for JSON responses, the first truthy of
the body fields `detail` and `message` (string-coerced) and otherwise the
generic string — the raw text is never consulted for JSON responses — and,
for non-JSON responses, the raw text when non-empty, else the generic
string. -/
theorem requestJson_error_classification (res : HttpResp)
    (h : respOk res.status = false) :
    ∃ e, requestJson res = .error e ∧ e.name = "Error" ∧
      e.status = some res.status ∧
      (respIsJson res = true → ∀ data, res.jsonBody = some data →
        (truthyOpt (getProp data "detail") = true →
          e.message = jsToString (nullishOr (getProp data "detail") .null)) ∧
        (truthyOpt (getProp data "detail") = false →
          truthyOpt (getProp data "message") = true →
          e.message = jsToString (nullishOr (getProp data "message") .null)) ∧
        (truthyOpt (getProp data "detail") = false →
          truthyOpt (getProp data "message") = false →
          e.message = genericFailMsg res.status)) ∧
      (respIsJson res = true → res.jsonBody = none →
        e.message = genericFailMsg res.status) ∧
      (respIsJson res = false → res.bodyText ≠ "" → e.message = res.bodyText) ∧
      (respIsJson res = false → res.bodyText = "" →
        e.message = genericFailMsg res.status) := by
  refine ⟨requestJsonError res, ?_, rfl, rfl, ?_, ?_, ?_, ?_⟩
  · unfold requestJson
    rw [h]
    rfl
  · intro hj data hdata
    refine ⟨?_, ?_, ?_⟩
    · intro hdet
      simp [requestJsonError, errorMessageFor, hj, hdata, hdet]
    · intro hdet hmsg
      simp [requestJsonError, errorMessageFor, hj, hdata, hdet, hmsg]
    · intro hdet hmsg
      simp [requestJsonError, errorMessageFor, hj, hdata, hdet, hmsg]
  · intro hj hnone
    simp [requestJsonError, errorMessageFor, hj, hnone]
  · intro hj htext
    simp [requestJsonError, errorMessageFor, hj, htext]
  · intro hj htext
    simp [requestJsonError, errorMessageFor, hj, htext]

/-- C8 witness: a 404 plain-text response with body `nope` raises an
error with status 404 and message `nope`. -/
theorem requestJson_error_classification_witness :
    ∃ e, requestJson (HttpResp.mk 404 "text/plain" "nope" none) = .error e ∧
      e.status = some 404 ∧ e.message = "nope" := by
  obtain ⟨e, he, _, hst, _, _, htext, _⟩ := requestJson_error_classification
    (HttpResp.mk 404 "text/plain" "nope" none) (by decide)
  exact ⟨e, he, hst, htext (by decide) (by decide)⟩

/-- C9 counterexample: a raw note whose `title` is the number 7 normalizes
to a note whose `title` field holds that number, not a string. -/
theorem normalize_title_not_string_cex :
    normalizeNotesResponse (.arr [.obj [("title", Json.num 7)]]) =
      some [.obj [("title", Json.num 7), ("id", Json.null),
        ("content", Json.str "")]] ∧
    isStr (Json.num 7) = false :=
  ⟨rfl, rfl⟩

/-- C9 amended: normalization keeps exactly the JavaScript objects of the
response array (`null` and primitive elements are dropped); every
normalized note is an object carrying `id`, `title` and `content` fields,
where `title` defaults to the empty string only when the raw `title` is
nullish (a non-nullish raw value of any type is kept as is), and likewise
`content` when both `content` and `body` are nullish. -/
theorem normalizeNotesResponse_invariants (xs : List Json) :
    normalizeNotesResponse (.arr xs) = some (xs.filterMap normalizeNote) ∧
    ∀ x ∈ xs,
      (jsNonObject x = true → normalizeNote x = none) ∧
      (∀ n, normalizeNote x = some n →
        (∃ fields, n = .obj fields) ∧
        (∃ v, getProp n "id" = some v) ∧
        (∃ v, getProp n "title" = some v) ∧
        (∃ v, getProp n "content" = some v) ∧
        (isNullish (getProp x "title") = true →
          getProp n "title" = some (.str "")) ∧
        (isNullish (getProp x "content") = true →
          isNullish (getProp x "body") = true →
          getProp n "content" = some (.str ""))) := by
  refine ⟨rfl, ?_⟩
  intro x _
  constructor
  · intro hno
    cases x <;> first | rfl | simp [jsNonObject] at hno
  · intro n hn
    have hobj : jsNonObject x = false := by
      cases x <;> first | rfl | simp [normalizeNote] at hn
    have heq := normalizeNote_eq_of_object x hobj
    rw [heq] at hn
    have hid := normalizeNote_id_field x hobj
    have htitle := normalizeNote_title_field x hobj
    have hcontent := normalizeNote_content_field x hobj
    rw [heq] at hid htitle hcontent
    simp only [Option.some_bind] at hid htitle hcontent
    obtain rfl : _ = n := Option.some.inj hn
    refine ⟨⟨_, rfl⟩, ⟨_, hid⟩, ⟨_, htitle⟩, ⟨_, hcontent⟩, ?_, ?_⟩
    · intro hnull
      rw [htitle, nullishOr_of_isNullish _ hnull]
    · intro hnullc hnullb
      rw [hcontent, nullishOr_of_isNullish _ hnullc, nullishOr_of_isNullish _ hnullb]

/-- C9 witness: in a response mixing a number and an empty object, the
number is dropped and the empty object gains the three canonical fields. -/
theorem normalizeNotesResponse_invariants_witness :
    normalizeNote (Json.num 3) = none ∧
    getProp (.obj [("id", Json.null), ("title", Json.str ""),
      ("content", Json.str "")]) "title" = some (.str "") := by
  have h := normalizeNotesResponse_invariants [Json.num 3, .obj []]
  refine ⟨(h.2 (Json.num 3) (by simp)).1 rfl, ?_⟩
  exact ((h.2 (.obj []) (by simp)).2 _ rfl).2.2.2.2.1 rfl

/-- C1 counterexample: after a successful server search for `zz` that
returns a note not containing `zz`, the server-search flag is true yet the
displayed notes differ from the server results — the client-side filter is
still applied. -/
theorem serverSearch_filter_still_applied_cex :
    (searchResolve { initialAppState with search := "zz" }
      (.ok [.obj [("id", Json.num 1), ("title", Json.str "Milk"),
        ("content", Json.str "buy")]])).serverSearchActive = true ∧
    visibleNotes (searchResolve { initialAppState with search := "zz" }
      (.ok [.obj [("id", Json.num 1), ("title", Json.str "Milk"),
        ("content", Json.str "buy")]])) ≠
    (searchResolve { initialAppState with search := "zz" }
      (.ok [.obj [("id", Json.num 1), ("title", Json.str "Milk"),
        ("content", Json.str "buy")]])).notes :=
  ⟨rfl, fun h => absurd (congrArg List.length h) (by decide)⟩

/-- C1 amended: the client-side filter is applied to the displayed notes
unconditionally; after a successful server search the flag is set and the
displayed notes are the client-side filter of the server results for the
current search text, not the bare results. -/
theorem visibleNotes_filters_server_results (s : AppState) (results : List Json) :
    (searchResolve s (.ok results)).serverSearchActive = true ∧
    (searchResolve s (.ok results)).notes = results ∧
    (searchResolve s (.ok results)).search = s.search ∧
    visibleNotes (searchResolve s (.ok results)) =
      filterClientSide results s.search :=
  ⟨rfl, rfl, rfl, rfl⟩

/-- C2 counterexample: start a list fetch, supersede it with a second one,
then deliver the abort to the first: its `finally` clause flips the
loading flag, so the canceled request does mutate the state. -/
theorem canceled_list_fetch_clears_loading_cex :
    loadNotesFinish (loadNotesStart (loadNotesStart initialAppState))
        (.error abortError) ≠
      loadNotesStart (loadNotesStart initialAppState) :=
  fun h => absurd (congrArg AppState.loading h) (by decide)

/-- C2 amended: a canceled list fetch leaves the note collection, the
error flag and every other state field untouched and surfaces no error,
except that its `finally` clause sets the loading flag to false. -/
theorem canceled_list_fetch_preserves_state (s : AppState) (e : JsError)
    (h : e.name = "AbortError") :
    (loadNotesFinish s (.error e)).notes = s.notes ∧
    (loadNotesFinish s (.error e)).error = s.error ∧
    (loadNotesFinish s (.error e)).busyMutation = s.busyMutation ∧
    (loadNotesFinish s (.error e)).search = s.search ∧
    (loadNotesFinish s (.error e)).serverSearchActive = s.serverSearchActive ∧
    (loadNotesFinish s (.error e)).modalOpen = s.modalOpen ∧
    (loadNotesFinish s (.error e)).modalMode = s.modalMode ∧
    (loadNotesFinish s (.error e)).activeNote = s.activeNote ∧
    (loadNotesFinish s (.error e)).loading = false := by
  simp [loadNotesFinish, if_pos h]

/-- C2 witness: the abort rejection applied to the initial state keeps
every field except the loading flag. -/
theorem canceled_list_fetch_preserves_state_witness :
    (loadNotesFinish initialAppState (.error abortError)).notes =
      initialAppState.notes ∧
    (loadNotesFinish initialAppState (.error abortError)).error =
      initialAppState.error ∧
    (loadNotesFinish initialAppState (.error abortError)).busyMutation =
      initialAppState.busyMutation ∧
    (loadNotesFinish initialAppState (.error abortError)).search =
      initialAppState.search ∧
    (loadNotesFinish initialAppState (.error abortError)).serverSearchActive =
      initialAppState.serverSearchActive ∧
    (loadNotesFinish initialAppState (.error abortError)).modalOpen =
      initialAppState.modalOpen ∧
    (loadNotesFinish initialAppState (.error abortError)).modalMode =
      initialAppState.modalMode ∧
    (loadNotesFinish initialAppState (.error abortError)).activeNote =
      initialAppState.activeNote ∧
    (loadNotesFinish initialAppState (.error abortError)).loading = false :=
  canceled_list_fetch_preserves_state initialAppState abortError rfl
